import Mathlib

/-
Verification of the ActiveCampaign webhook receiver
(`activecampaign_webhooks_v2.py`, schema from `init_webhook_database.py`).

The embedding models the full-database mode of the receiver (the module-level
flag `DB_AVAILABLE` is true): persons live in `unified_persons`, change records
in `ac_profile_updates`, and webhook audit rows in `ac_webhook_log`.  SQLite
rows are modelled as Lean structures, the three tables as lists, and each
database-touching method of `WebhookProcessor` as a function from the database
state to a result paired with the new state.  Python string operations
`.lower()`, `.strip()`, `.startswith()` and the substring test `in` are
modelled by character-list functions so that every definition evaluates by
kernel reduction.
-/

namespace CRMListener

/-- Model of Python `str.lower()`: lower-case every character. -/
def strToLower (s : String) : String := ⟨s.data.map Char.toLower⟩

/-- Model of Python `str.strip()` and SQL `TRIM`: drop whitespace at both ends. -/
def strTrim (s : String) : String :=
  ⟨((s.data.dropWhile Char.isWhitespace).reverse.dropWhile Char.isWhitespace).reverse⟩

/-- Model of Python `str.startswith(p)`. -/
def strStartsWith (s p : String) : Bool := p.data.isPrefixOf s.data

/-- Helper for `containsSub`: does `needle` occur as a contiguous run in the list? -/
def strContainsAux (needle : List Char) : List Char → Bool
  | [] => needle.isEmpty
  | c :: rest => needle.isPrefixOf (c :: rest) || strContainsAux needle rest

/-- Model of Python `needle in haystack` (substring containment). -/
def containsSub (haystack needle : String) : Bool :=
  strContainsAux needle.data haystack.data

/-- One row of `unified_persons` (columns as created by `init_webhook_database.py`
plus the profile columns read by `update_person_profile`).  Nullable text
columns are modelled as `String` with `""` for NULL, except `ac_contact_id`
whose NULL/empty distinction matters to SQL equality and Python truthiness. -/
structure Person where
  person_id : Nat
  name : String
  primary_email : String
  phone : String
  company : String
  position : String
  industry : String
  location : String
  professional_summary : String
  ac_contact_id : Option String
  ac_last_synced : String
  ac_profile_source : String
deriving DecidableEq

/-- One entry of the `fieldValues` list in a webhook payload. -/
structure FieldValue where
  field : String
  value : String
deriving DecidableEq

/-- The `contact` object of a webhook payload; absent keys are `""`/`[]`,
matching `dict.get` with those defaults in the source. -/
structure Contact where
  id : String := ""
  email : String := ""
  firstName : String := ""
  lastName : String := ""
  first_name : String := ""
  last_name : String := ""
  phone : String := ""
  fieldValues : List FieldValue := []
deriving DecidableEq

/-- A parsed webhook payload: the `type` field, the `contact` object, and the
top-level `contact_id` fallback key. -/
structure Payload where
  type : String := ""
  contact : Contact := {}
  contact_id : String := ""
deriving DecidableEq

/-- One row of `ac_profile_updates` as inserted by `update_person_profile`. -/
structure ChangeRecord where
  person_id : Nat
  ac_contact_id : String
  field_name : String
  old_value : String
  new_value : String
  source : String
deriving DecidableEq

/-- One row of `ac_webhook_log` as inserted by `log_webhook`. -/
structure WebhookLogEntry where
  webhook_type : String
  ac_contact_id : String
  email : String
  received_at : String
  payload : Payload
  processed : Bool
  person_id : Option Nat
  error_message : Option String
deriving DecidableEq

/-- The three tables touched by the webhook receiver. -/
structure DB where
  persons : List Person
  profile_updates : List ChangeRecord
  webhook_log : List WebhookLogEntry
deriving DecidableEq

/-- The JSON dict returned by an event handler. -/
structure HandlerResult where
  success : Bool
  person_id : Option Nat := none
  ac_contact_id : String
  message : String
deriving DecidableEq

/-- `WebhookProcessor._extract_contact_id`:
`contact.get('id','') or payload.get('contact_id','')`. -/
def extract_contact_id (payload : Payload) : String :=
  if payload.contact.id ≠ "" then payload.contact.id else payload.contact_id

/-- `WebhookProcessor._extract_email`: `contact.get('email','').lower().strip()`. -/
def extract_email (payload : Payload) : String :=
  strTrim (strToLower payload.contact.email)

/-- Python truthiness of a nullable string column (`None` and `''` are falsy). -/
def strOptTruthy : Option String → Bool
  | none => false
  | some s => s ≠ ""

/-- `WebhookProcessor.find_person_by_ac_id`:
`SELECT ... FROM unified_persons WHERE ac_contact_id = ? LIMIT 1`
(SQL equality: a NULL column never matches). -/
def find_person_by_ac_id (db : DB) (ac_contact_id : String) : Option Person :=
  db.persons.find? (fun p => p.ac_contact_id == some ac_contact_id)

/-- `WebhookProcessor.find_person_by_email`:
`SELECT ... WHERE LOWER(TRIM(primary_email)) = ? LIMIT 1` with the query
argument `email.lower().strip()`. -/
def find_person_by_email (db : DB) (email : String) : Option Person :=
  db.persons.find? (fun p =>
    strToLower (strTrim p.primary_email) == strTrim (strToLower email))

/-- The profile dict built by `extract_profile_fields`; keys that were never
assigned are `""` (both a missing key and an empty value are falsy at every
use site, so the distinction is invisible to the rest of the program). -/
structure Profile where
  first_name : String := ""
  last_name : String := ""
  email : String := ""
  phone : String := ""
  company : String := ""
  industry : String := ""
  position : String := ""
  location : String := ""
  professional_summary : String := ""
deriving DecidableEq

/-- The body of the `for field_data in field_values` loop of
`extract_profile_fields`: case-insensitive substring match of the entry's
declared field name against the fixed keywords, first match wins. -/
def applyFieldValue (profile : Profile) (field_data : FieldValue) : Profile :=
  let field_name := field_data.field
  let field_value := field_data.value
  if containsSub (strToLower field_name) "company" then
    { profile with company := field_value }
  else if containsSub (strToLower field_name) "industry" then
    { profile with industry := field_value }
  else if containsSub (strToLower field_name) "job" ||
          containsSub (strToLower field_name) "title" then
    { profile with position := field_value }
  else if containsSub (strToLower field_name) "location" then
    { profile with location := field_value }
  else if containsSub (strToLower field_name) "summary" then
    { profile with professional_summary := field_value }
  else profile

/-- `WebhookProcessor.extract_profile_fields`: structured fields directly
(camelCase wins over snake_case via Python `or`), then the custom-field loop. -/
def extract_profile_fields (payload : Payload) : Profile :=
  let contact := payload.contact
  let base : Profile :=
    { first_name := if contact.firstName ≠ "" then contact.firstName else contact.first_name
      last_name := if contact.lastName ≠ "" then contact.lastName else contact.last_name
      email := strTrim (strToLower contact.email)
      phone := contact.phone }
  contact.fieldValues.foldl applyFieldValue base

/-- `f"{first} {last}".strip()` from `update_person_profile`. -/
def new_name (pu : Profile) : String :=
  strTrim (pu.first_name ++ " " ++ pu.last_name)

/-- The guard of the name branch of `update_person_profile`:
`if first or last:` then `if new_name and new_name != current[0]:`. -/
def name_changed (pu : Profile) (current : Person) : Bool :=
  (pu.first_name != "" || pu.last_name != "") &&
    (new_name pu != "" && new_name pu != current.name)

/-- Guard of the email branch: `if pu.get('email') and pu['email'] != current[1]:`. -/
def email_changed (pu : Profile) (current : Person) : Bool :=
  pu.email != "" && pu.email != current.primary_email

/-- Guard of the phone branch of `update_person_profile`. -/
def phone_changed (pu : Profile) (current : Person) : Bool :=
  pu.phone != "" && pu.phone != current.phone

/-- Guard of the company branch of `update_person_profile`. -/
def company_changed (pu : Profile) (current : Person) : Bool :=
  pu.company != "" && pu.company != current.company

/-- Guard of the position branch of `update_person_profile`. -/
def position_changed (pu : Profile) (current : Person) : Bool :=
  pu.position != "" && pu.position != current.position

/-- Guard of the industry branch of `update_person_profile`. -/
def industry_changed (pu : Profile) (current : Person) : Bool :=
  pu.industry != "" && pu.industry != current.industry

/-- Guard of the location branch of `update_person_profile`. -/
def location_changed (pu : Profile) (current : Person) : Bool :=
  pu.location != "" && pu.location != current.location

/-- Guard of the professional-summary branch of `update_person_profile`. -/
def summary_changed (pu : Profile) (current : Person) : Bool :=
  pu.professional_summary != "" && pu.professional_summary != current.professional_summary

/-- The `changes_logged` list accumulated by `update_person_profile`, in the
source's branch order; each branch contributes one `(field, old, new)` row
exactly when its guard holds. -/
def changes_logged (person_id : Nat) (ac_contact_id : String)
    (current : Person) (pu : Profile) : List ChangeRecord :=
  (if name_changed pu current then
    [⟨person_id, ac_contact_id, "name", current.name, new_name pu, "webhook"⟩] else [])
  ++ (if email_changed pu current then
    [⟨person_id, ac_contact_id, "primary_email", current.primary_email, pu.email, "webhook"⟩] else [])
  ++ (if phone_changed pu current then
    [⟨person_id, ac_contact_id, "phone", current.phone, pu.phone, "webhook"⟩] else [])
  ++ (if company_changed pu current then
    [⟨person_id, ac_contact_id, "company", current.company, pu.company, "webhook"⟩] else [])
  ++ (if position_changed pu current then
    [⟨person_id, ac_contact_id, "position", current.position, pu.position, "webhook"⟩] else [])
  ++ (if industry_changed pu current then
    [⟨person_id, ac_contact_id, "industry", current.industry, pu.industry, "webhook"⟩] else [])
  ++ (if location_changed pu current then
    [⟨person_id, ac_contact_id, "location", current.location, pu.location, "webhook"⟩] else [])
  ++ (if summary_changed pu current then
    [⟨person_id, ac_contact_id, "professional_summary", current.professional_summary,
      pu.professional_summary, "webhook"⟩] else [])

/-- The row produced by the `UPDATE unified_persons SET ...` statement of
`update_person_profile`: each guard that fired sets its column. -/
def updated_row (pu : Profile) (current : Person) : Person :=
  { current with
    name := if name_changed pu current then new_name pu else current.name
    primary_email := if email_changed pu current then pu.email else current.primary_email
    phone := if phone_changed pu current then pu.phone else current.phone
    company := if company_changed pu current then pu.company else current.company
    position := if position_changed pu current then pu.position else current.position
    industry := if industry_changed pu current then pu.industry else current.industry
    location := if location_changed pu current then pu.location else current.location
    professional_summary :=
      if summary_changed pu current then pu.professional_summary
      else current.professional_summary }

/-- The `SELECT ... WHERE person_id = ?` + `fetchone()` at the top of
`update_person_profile`. -/
def findPersonById (db : DB) (person_id : Nat) : Option Person :=
  db.persons.find? (fun p => p.person_id == person_id)

/-- `WebhookProcessor.update_person_profile` (`now` stands for
`datetime.now().isoformat()`): read the current row, diff the tracked fields,
and if anything changed write the row (including `ac_last_synced`) and append
one `ac_profile_updates` record per change; returns the Python result. -/
def update_person_profile (now : String) (db : DB) (person_id : Nat)
    (ac_contact_id : String) (profile_updates : Profile) : Bool × DB :=
  match findPersonById db person_id with
  | none => (false, db)
  | some current =>
    let changes := changes_logged person_id ac_contact_id current profile_updates
    if changes.isEmpty then (true, db)
    else
      let updated := { updated_row profile_updates current with ac_last_synced := now }
      (true,
       { db with
         persons := db.persons.map (fun p =>
           if p.person_id == person_id then updated else p)
         profile_updates := db.profile_updates ++ changes })

/-- `WebhookProcessor.log_webhook` in full mode: append one `ac_webhook_log`
row built from the payload. -/
def log_webhook (now : String) (db : DB) (webhook_type : String) (payload : Payload)
    (processed : Bool) (person_id : Option Nat) (error : Option String) : DB :=
  { db with webhook_log := db.webhook_log ++
      [{ webhook_type := webhook_type
         ac_contact_id := extract_contact_id payload
         email := extract_email payload
         received_at := now
         payload := payload
         processed := processed
         person_id := person_id
         error_message := error }] }

/-- The `UPDATE unified_persons SET ac_contact_id = ?, ac_profile_source =
'activecampaign' WHERE person_id = ?` statement shared by the email-fallback
paths of `handle_contact_update` and `handle_contact_add`. -/
def link_ac_contact_id (db : DB) (ac_contact_id : String) (person_id : Nat) : DB :=
  { db with persons := db.persons.map (fun p =>
      if p.person_id == person_id then
        { p with ac_contact_id := some ac_contact_id
                 ac_profile_source := "activecampaign" }
      else p) }

/-- The resolution phase of `handle_contact_update`: look up by
`ac_contact_id`; if that fails, look up by email and, when found, link the
`ac_contact_id` to the found person (unconditionally in this handler). -/
def resolve_update (db : DB) (ac_contact_id : String) (email : String) :
    Option Person × DB :=
  match find_person_by_ac_id db ac_contact_id with
  | some person => (some person, db)
  | none =>
    match find_person_by_email db email with
    | some person => (some person, link_ac_contact_id db ac_contact_id person.person_id)
    | none => (none, db)

/-- The tail of the person-found branch of `handle_contact_update`: log the
event as processed with the person's id and return the handler's dict, with
the success flag coming from `update_person_profile`. -/
def contact_update_finish (now : String) (db : DB) (payload : Payload)
    (person_id : Nat) (ac_contact_id : String) (success : Bool) :
    HandlerResult × DB :=
  let db2 := log_webhook now db "contact_update" payload true (some person_id) none
  ({ success := success
     person_id := some person_id
     ac_contact_id := ac_contact_id
     message := if success then "Profile updated" else "Update failed" }, db2)

/-- `WebhookProcessor.handle_contact_update` in full mode. -/
def handle_contact_update (now : String) (db : DB) (payload : Payload) :
    HandlerResult × DB :=
  let ac_contact_id := extract_contact_id payload
  let email := extract_email payload
  let res := resolve_update db ac_contact_id email
  match res.1 with
  | some person =>
    let profile_updates := extract_profile_fields payload
    let upd :=
      update_person_profile now res.2 person.person_id ac_contact_id profile_updates
    contact_update_finish now upd.2 payload person.person_id ac_contact_id upd.1
  | none =>
    let db2 := log_webhook now res.2 "contact_update" payload false none
      (some "Contact not in analytics database")
    ({ success := false
       person_id := none
       ac_contact_id := ac_contact_id
       message := "Contact not found in analytics database" }, db2)

/-- `WebhookProcessor.handle_contact_add` in full mode: find by id then by
email; if found, link the `ac_contact_id` only when the found row has none
(`if not person['ac_contact_id']`), log processed; otherwise log unprocessed
with the pending-export reason. -/
def handle_contact_add (now : String) (db : DB) (payload : Payload) :
    HandlerResult × DB :=
  let ac_contact_id := extract_contact_id payload
  let email := extract_email payload
  let person :=
    match find_person_by_ac_id db ac_contact_id with
    | some p => some p
    | none => find_person_by_email db email
  match person with
  | some p =>
    let db1 :=
      if !(strOptTruthy p.ac_contact_id) then
        link_ac_contact_id db ac_contact_id p.person_id
      else db
    let db2 := log_webhook now db1 "contact_add" payload true (some p.person_id) none
    ({ success := true
       person_id := some p.person_id
       ac_contact_id := ac_contact_id
       message := "Linked to existing person" }, db2)
  | none =>
    let db1 := log_webhook now db "contact_add" payload false none
      (some "New contact - pending export sync")
    ({ success := false
       person_id := none
       ac_contact_id := ac_contact_id
       message := "New contact - will sync via next export" }, db1)

/-- `WebhookProcessor.handle_contact_delete`: log only, never mutate. -/
def handle_contact_delete (now : String) (db : DB) (payload : Payload) :
    HandlerResult × DB :=
  let ac_contact_id := extract_contact_id payload
  let db1 := log_webhook now db "contact_delete" payload true none none
  ({ success := true
     person_id := none
     ac_contact_id := ac_contact_id
     message := "Deletion logged (no action taken per requirements)" }, db1)

/-- The type normalization of `webhook_handler`:
`if webhook_type and not webhook_type.startswith('contact_')`. -/
def normalize_webhook_type (t : String) : String :=
  if t != "" && !(strStartsWith t "contact_") then "contact_" ++ t else t

/-- The dispatch portion of `webhook_handler` (after signature check and body
parsing): normalize the type, route to a handler (HTTP 200), or reject an
unknown type with HTTP 400 and no database access. -/
def webhook_handler (now : String) (db : DB) (payload : Payload) :
    (Nat × Option HandlerResult) × DB :=
  let webhook_type := normalize_webhook_type payload.type
  if webhook_type == "contact_update" then
    let r := handle_contact_update now db payload
    ((200, some r.1), r.2)
  else if webhook_type == "contact_add" then
    let r := handle_contact_add now db payload
    ((200, some r.1), r.2)
  else if webhook_type == "contact_delete" then
    let r := handle_contact_delete now db payload
    ((200, some r.1), r.2)
  else ((400, none), db)

/-- An empty database, used to instantiate universal statements. -/
def emptyDB : DB := { persons := [], profile_updates := [], webhook_log := [] }

/-- A person row with every nullable column empty, used as a base for
concrete instantiations. -/
def basePerson : Person :=
  { person_id := 1, name := "", primary_email := "", phone := "", company := "",
    position := "", industry := "", location := "", professional_summary := "",
    ac_contact_id := none, ac_last_synced := "", ac_profile_source := "" }

/-- Filtering one guarded singleton block of `changes_logged`. -/
theorem filter_if_single (c : Prop) [Decidable c] (r : ChangeRecord)
    (p : ChangeRecord → Bool) :
    List.filter p (if c then [r] else []) = if c ∧ p r = true then [r] else [] := by
  by_cases hc : c
  · rw [if_pos hc, List.filter_singleton]
    by_cases hp : p r = true
    · rw [if_pos ⟨hc, hp⟩]
      simp [hp]
    · rw [if_neg (fun hand => hp hand.2)]
      have hpf : p r = false := by
        cases hpv : p r
        · rfl
        · exact absurd hpv hp
      simp [hpf]
  · rw [if_neg hc, if_neg (fun hand => hc hand.1)]
    rfl

/-- A guarded singleton is nonempty exactly when its guard holds. -/
theorem if_single_ne_nil (b : Bool) (r : ChangeRecord) :
    ((if b then [r] else []) ≠ []) ↔ b = true := by
  cases b <;> simp

/-- A record with some field name exists exactly when the filter by that
field name is nonempty. -/
theorem exists_field_iff_filter (l : List ChangeRecord) (f : String) :
    (∃ r ∈ l, r.field_name = f) ↔ l.filter (fun r => r.field_name == f) ≠ [] := by
  constructor
  · rintro ⟨r, hr, hf⟩ hnil
    have hmem : r ∈ l.filter (fun r => r.field_name == f) :=
      List.mem_filter.mpr ⟨hr, by simp [hf]⟩
    rw [hnil] at hmem
    exact absurd hmem (List.not_mem_nil r)
  · intro hne
    cases hl : l.filter (fun r => r.field_name == f) with
    | nil => exact absurd hl hne
    | cons a t =>
      have hmem : a ∈ l.filter (fun r => r.field_name == f) := by
        rw [hl]; exact List.mem_cons_self a t
      obtain ⟨hal, hbeq⟩ := List.mem_filter.mp hmem
      exact ⟨a, hal, by simpa using hbeq⟩

/-- Rewrite a boolean-guarded `if` into one guarded by an equivalent
proposition. -/
theorem ite_bool_prop {α : Sort _} (b : Bool) (P : Prop) [Decidable P]
    (hb : b = true ↔ P) (x y : α) : (if b then x else y) = if P then x else y := by
  by_cases hp : P
  · rw [if_pos (hb.mpr hp), if_pos hp]
  · have hbf : b = false := by
      cases hbv : b
      · rfl
      · exact absurd (hb.mp hbv) hp
    rw [hbf, if_neg hp]
    rfl

/-- A guard of shape `x and x != stored` is false when `x` is empty or
equal to the stored value. -/
theorem changed_false_of (b : Bool) (x y z : String) (hb : b = true ↔ (x ≠ y ∧ x ≠ z))
    (h : x = y ∨ x = z) : b = false := by
  cases hbv : b
  · rfl
  · obtain ⟨h1, h2⟩ := hb.mp hbv
    rcases h with h | h
    · exact absurd h h1
    · exact absurd h h2

/-- The email guard in the claim's vocabulary. -/
theorem email_changed_iff (pu : Profile) (current : Person) :
    email_changed pu current = true ↔ (pu.email ≠ "" ∧ pu.email ≠ current.primary_email) := by
  simp [email_changed]

/-- The phone guard in the claim's vocabulary. -/
theorem phone_changed_iff (pu : Profile) (current : Person) :
    phone_changed pu current = true ↔ (pu.phone ≠ "" ∧ pu.phone ≠ current.phone) := by
  simp [phone_changed]

/-- The company guard in the claim's vocabulary. -/
theorem company_changed_iff (pu : Profile) (current : Person) :
    company_changed pu current = true ↔ (pu.company ≠ "" ∧ pu.company ≠ current.company) := by
  simp [company_changed]

/-- The position guard in the claim's vocabulary. -/
theorem position_changed_iff (pu : Profile) (current : Person) :
    position_changed pu current = true ↔ (pu.position ≠ "" ∧ pu.position ≠ current.position) := by
  simp [position_changed]

/-- The industry guard in the claim's vocabulary. -/
theorem industry_changed_iff (pu : Profile) (current : Person) :
    industry_changed pu current = true ↔ (pu.industry ≠ "" ∧ pu.industry ≠ current.industry) := by
  simp [industry_changed]

/-- The location guard in the claim's vocabulary. -/
theorem location_changed_iff (pu : Profile) (current : Person) :
    location_changed pu current = true ↔ (pu.location ≠ "" ∧ pu.location ≠ current.location) := by
  simp [location_changed]

/-- The summary guard in the claim's vocabulary. -/
theorem summary_changed_iff (pu : Profile) (current : Person) :
    summary_changed pu current = true
      ↔ (pu.professional_summary ≠ ""
          ∧ pu.professional_summary ≠ current.professional_summary) := by
  simp [summary_changed]

/-- Combining two empty name parts yields the empty display name. -/
theorem new_name_empty (pu : Profile) (hf : pu.first_name = "") (hl : pu.last_name = "") :
    new_name pu = "" := by
  unfold new_name
  rw [hf, hl]
  rfl

/-- The full name guard, including the `first or last` entry condition. -/
theorem name_changed_iff_full (pu : Profile) (current : Person) :
    name_changed pu current = true
      ↔ ((pu.first_name ≠ "" ∨ pu.last_name ≠ "")
          ∧ new_name pu ≠ "" ∧ new_name pu ≠ current.name) := by
  simp [name_changed, and_assoc]

/-- The name guard reduces to the claim's vocabulary: the entry condition
`first or last nonempty` is implied by a nonempty combined name. -/
theorem name_changed_iff (pu : Profile) (current : Person) :
    name_changed pu current = true ↔ (new_name pu ≠ "" ∧ new_name pu ≠ current.name) := by
  rw [name_changed_iff_full]
  constructor
  · rintro ⟨_, h2, h3⟩
    exact ⟨h2, h3⟩
  · rintro ⟨h2, h3⟩
    refine ⟨?_, h2, h3⟩
    by_contra hcon
    push_neg at hcon
    exact h2 (new_name_empty pu hcon.1 hcon.2)

/-- The name records among `changes_logged`. -/
theorem changes_filter_name (pid : Nat) (ac : String) (current : Person) (pu : Profile) :
    (changes_logged pid ac current pu).filter (fun r => r.field_name == "name")
      = if name_changed pu current then
          [⟨pid, ac, "name", current.name, new_name pu, "webhook"⟩] else [] := by
  unfold changes_logged
  simp [List.filter_append, filter_if_single]

/-- The primary-email records among `changes_logged`. -/
theorem changes_filter_email (pid : Nat) (ac : String) (current : Person) (pu : Profile) :
    (changes_logged pid ac current pu).filter (fun r => r.field_name == "primary_email")
      = if email_changed pu current then
          [⟨pid, ac, "primary_email", current.primary_email, pu.email, "webhook"⟩] else [] := by
  unfold changes_logged
  simp [List.filter_append, filter_if_single]

/-- The phone records among `changes_logged`. -/
theorem changes_filter_phone (pid : Nat) (ac : String) (current : Person) (pu : Profile) :
    (changes_logged pid ac current pu).filter (fun r => r.field_name == "phone")
      = if phone_changed pu current then
          [⟨pid, ac, "phone", current.phone, pu.phone, "webhook"⟩] else [] := by
  unfold changes_logged
  simp [List.filter_append, filter_if_single]

/-- The company records among `changes_logged`. -/
theorem changes_filter_company (pid : Nat) (ac : String) (current : Person) (pu : Profile) :
    (changes_logged pid ac current pu).filter (fun r => r.field_name == "company")
      = if company_changed pu current then
          [⟨pid, ac, "company", current.company, pu.company, "webhook"⟩] else [] := by
  unfold changes_logged
  simp [List.filter_append, filter_if_single]

/-- The position records among `changes_logged`. -/
theorem changes_filter_position (pid : Nat) (ac : String) (current : Person) (pu : Profile) :
    (changes_logged pid ac current pu).filter (fun r => r.field_name == "position")
      = if position_changed pu current then
          [⟨pid, ac, "position", current.position, pu.position, "webhook"⟩] else [] := by
  unfold changes_logged
  simp [List.filter_append, filter_if_single]

/-- The industry records among `changes_logged`. -/
theorem changes_filter_industry (pid : Nat) (ac : String) (current : Person) (pu : Profile) :
    (changes_logged pid ac current pu).filter (fun r => r.field_name == "industry")
      = if industry_changed pu current then
          [⟨pid, ac, "industry", current.industry, pu.industry, "webhook"⟩] else [] := by
  unfold changes_logged
  simp [List.filter_append, filter_if_single]

/-- The location records among `changes_logged`. -/
theorem changes_filter_location (pid : Nat) (ac : String) (current : Person) (pu : Profile) :
    (changes_logged pid ac current pu).filter (fun r => r.field_name == "location")
      = if location_changed pu current then
          [⟨pid, ac, "location", current.location, pu.location, "webhook"⟩] else [] := by
  unfold changes_logged
  simp [List.filter_append, filter_if_single]

/-- The professional-summary records among `changes_logged`. -/
theorem changes_filter_summary (pid : Nat) (ac : String) (current : Person) (pu : Profile) :
    (changes_logged pid ac current pu).filter (fun r => r.field_name == "professional_summary")
      = if summary_changed pu current then
          [⟨pid, ac, "professional_summary", current.professional_summary,
            pu.professional_summary, "webhook"⟩] else [] := by
  unfold changes_logged
  simp [List.filter_append, filter_if_single]

/-- The row returned by the `fetchone()` lookup satisfies its `WHERE` clause. -/
theorem findPersonById_pid {db : DB} {pid : Nat} {current : Person}
    (hf : findPersonById db pid = some current) : current.person_id = pid := by
  simpa using List.find?_some hf

/-- Every person row of the table produced by `link_ac_contact_id` whose
`person_id` is the linked one carries the new `ac_contact_id`. -/
theorem link_ac_contact_id_mem (db : DB) (ac : String) (pid : Nat) :
    ∀ q ∈ (link_ac_contact_id db ac pid).persons, q.person_id = pid →
      q.ac_contact_id = some ac := by
  intro q hq hqid
  rcases List.mem_map.mp hq with ⟨q0, hq0, hfq⟩
  by_cases hcond : (q0.person_id == pid) = true
  · rw [if_pos hcond] at hfq
    rw [← hfq]
  · rw [if_neg hcond] at hfq
    rw [← hfq] at hqid
    exact absurd hqid (by simpa using hcond)

/-- `update_person_profile` never touches the `ac_contact_id` column: every
row with the updated `person_id` afterwards has the `ac_contact_id` of some
row that already had that `person_id` before. -/
theorem update_person_profile_preserves_link (now : String) (db : DB) (pid : Nat)
    (ac : String) (pu : Profile) :
    ∀ q ∈ (update_person_profile now db pid ac pu).2.persons, q.person_id = pid →
      ∃ q0, q0 ∈ db.persons ∧ q0.person_id = pid ∧ q.ac_contact_id = q0.ac_contact_id := by
  intro q hq hqid
  unfold update_person_profile at hq
  cases hf : findPersonById db pid with
  | none => rw [hf] at hq; exact ⟨q, hq, hqid, rfl⟩
  | some current =>
    rw [hf] at hq
    simp only [] at hq
    by_cases hemp : (changes_logged pid ac current pu).isEmpty = true
    · rw [if_pos hemp] at hq
      exact ⟨q, hq, hqid, rfl⟩
    · rw [if_neg hemp] at hq
      rcases List.mem_map.mp hq with ⟨q0, hq0, hfq⟩
      by_cases hcond : (q0.person_id == pid) = true
      · rw [if_pos hcond] at hfq
        exact ⟨current, List.mem_of_find?_eq_some hf, findPersonById_pid hf,
          by rw [← hfq]; rfl⟩
      · rw [if_neg hcond] at hfq
        rw [← hfq] at hqid
        exact absurd hqid (by simpa using hcond)

/-- C5: for every event whose external contact identifier exactly matches an
existing person's stored `ac_contact_id`, the resolution phase of
`handle_contact_update` returns that person with no side effect, for every
email content, and the handler reports that person's id. -/
theorem ac_id_match_precedence (now : String) (db : DB) (payload : Payload) (p : Person)
    (h : find_person_by_ac_id db (extract_contact_id payload) = some p) :
    (∀ email, resolve_update db (extract_contact_id payload) email = (some p, db))
    ∧ (handle_contact_update now db payload).1.person_id = some p.person_id := by
  have hres : ∀ email, resolve_update db (extract_contact_id payload) email = (some p, db) := by
    intro email
    unfold resolve_update
    rw [h]
  refine ⟨hres, ?_⟩
  simp only [handle_contact_update, hres (extract_email payload), contact_update_finish]

/-- Witness for C5: a concrete database where the id lookup succeeds although
the event's email matches nobody. -/
theorem ac_id_match_precedence_witness :
    resolve_update { emptyDB with persons := [{ basePerson with ac_contact_id := some "42" }] }
        "42" "nobody@nowhere.test"
      = (some { basePerson with ac_contact_id := some "42" },
         { emptyDB with persons := [{ basePerson with ac_contact_id := some "42" }] }) := by
  have h := ac_id_match_precedence "t"
    { emptyDB with persons := [{ basePerson with ac_contact_id := some "42" }] }
    { type := "contact_update", contact := { id := "42" } }
    { basePerson with ac_contact_id := some "42" } (by decide)
  exact h.1 "nobody@nowhere.test"

/-- C7: every `contact_delete` event leaves the person table and the change
log untouched, appends exactly one processed webhook log entry, and returns
success. -/
theorem contact_delete_log_only (now : String) (db : DB) (payload : Payload) :
    (handle_contact_delete now db payload).1 =
      { success := true, person_id := none, ac_contact_id := extract_contact_id payload,
        message := "Deletion logged (no action taken per requirements)" }
    ∧ (handle_contact_delete now db payload).2.persons = db.persons
    ∧ (handle_contact_delete now db payload).2.profile_updates = db.profile_updates
    ∧ (handle_contact_delete now db payload).2.webhook_log = db.webhook_log ++
        [{ webhook_type := "contact_delete", ac_contact_id := extract_contact_id payload,
           email := extract_email payload, received_at := now, payload := payload,
           processed := true, person_id := none, error_message := none }] :=
  ⟨rfl, rfl, rfl, rfl⟩

/-- C10: `update_person_profile` fails exactly by returning `False` with no
state change when the person row is absent at update time, and the
person-found tail of `handle_contact_update` run with a failed update still
logs the event as processed with the person's id while returning
`success = false` and the message `Update failed`. -/
theorem update_failure_still_logged (now : String) (db : DB) (payload : Payload)
    (pid : Nat) (ac : String) (pu : Profile)
    (h : findPersonById db pid = none) :
    update_person_profile now db pid ac pu = (false, db)
    ∧ (contact_update_finish now db payload pid ac false).1.success = false
    ∧ (contact_update_finish now db payload pid ac false).1.message = "Update failed"
    ∧ (contact_update_finish now db payload pid ac false).1.person_id = some pid
    ∧ (contact_update_finish now db payload pid ac false).2.persons = db.persons
    ∧ (contact_update_finish now db payload pid ac false).2.profile_updates = db.profile_updates
    ∧ (contact_update_finish now db payload pid ac false).2.webhook_log = db.webhook_log ++
        [{ webhook_type := "contact_update", ac_contact_id := extract_contact_id payload,
           email := extract_email payload, received_at := now, payload := payload,
           processed := true, person_id := some pid, error_message := none }] := by
  refine ⟨?_, rfl, rfl, rfl, rfl, rfl, rfl⟩
  unfold update_person_profile
  rw [h]

/-- Witness for C10: the empty database has no person 1, the update fails,
and the handler tail still reports `Update failed` on a processed log row. -/
theorem update_failure_still_logged_witness :
    update_person_profile "t" emptyDB 1 "9" {} = (false, emptyDB)
    ∧ (contact_update_finish "t" emptyDB { type := "contact_update" } 1 "9" false).1.message
        = "Update failed"
    ∧ (contact_update_finish "t" emptyDB { type := "contact_update" } 1 "9" false).1.person_id
        = some 1 := by
  have h := update_failure_still_logged "t" emptyDB { type := "contact_update" } 1 "9" {} rfl
  exact ⟨h.1, h.2.2.1, h.2.2.2.1⟩

/-- Computation rule for `update_person_profile` when the person row exists. -/
theorem update_person_profile_eq (now : String) (db : DB) (pid : Nat) (ac : String)
    (pu : Profile) (current : Person) (h : findPersonById db pid = some current) :
    update_person_profile now db pid ac pu =
      (if (changes_logged pid ac current pu).isEmpty then (true, db)
       else (true, { db with
         persons := db.persons.map (fun p => if p.person_id == pid then
           { updated_row pu current with ac_last_synced := now } else p)
         profile_updates := db.profile_updates ++ changes_logged pid ac current pu })) := by
  unfold update_person_profile
  rw [h]

/-- A record with a given field name occurs in a change list with a
guarded-singleton filter exactly when the guard holds. -/
theorem exists_field_of_filter_eq {l : List ChangeRecord} {f : String} {b : Bool}
    {rec : ChangeRecord} (hfil : l.filter (fun r => r.field_name == f) = if b then [rec] else []) :
    (∃ r ∈ l, r.field_name = f) ↔ b = true := by
  rw [exists_field_iff_filter, hfil, if_single_ne_nil]

/-- C2: after an `update_person_profile` call on an existing person, the call
reports success, the appended change records are exactly `changes_logged`,
a change record for each tracked field exists precisely when that field's
incoming value is non-empty and differs from the stored value, and a call in
which every incoming field is empty or identical to the stored values appends
nothing and leaves the database unchanged while still reporting success. -/
theorem change_record_iff_differs (now : String) (db : DB) (pid : Nat) (ac : String)
    (pu : Profile) (current : Person)
    (h : findPersonById db pid = some current) :
    (update_person_profile now db pid ac pu).1 = true
    ∧ (update_person_profile now db pid ac pu).2.profile_updates
        = db.profile_updates ++ changes_logged pid ac current pu
    ∧ ((∃ r ∈ changes_logged pid ac current pu, r.field_name = "name")
        ↔ (new_name pu ≠ "" ∧ new_name pu ≠ current.name))
    ∧ ((∃ r ∈ changes_logged pid ac current pu, r.field_name = "primary_email")
        ↔ (pu.email ≠ "" ∧ pu.email ≠ current.primary_email))
    ∧ ((∃ r ∈ changes_logged pid ac current pu, r.field_name = "phone")
        ↔ (pu.phone ≠ "" ∧ pu.phone ≠ current.phone))
    ∧ ((∃ r ∈ changes_logged pid ac current pu, r.field_name = "company")
        ↔ (pu.company ≠ "" ∧ pu.company ≠ current.company))
    ∧ ((∃ r ∈ changes_logged pid ac current pu, r.field_name = "position")
        ↔ (pu.position ≠ "" ∧ pu.position ≠ current.position))
    ∧ ((∃ r ∈ changes_logged pid ac current pu, r.field_name = "industry")
        ↔ (pu.industry ≠ "" ∧ pu.industry ≠ current.industry))
    ∧ ((∃ r ∈ changes_logged pid ac current pu, r.field_name = "location")
        ↔ (pu.location ≠ "" ∧ pu.location ≠ current.location))
    ∧ ((∃ r ∈ changes_logged pid ac current pu, r.field_name = "professional_summary")
        ↔ (pu.professional_summary ≠ ""
            ∧ pu.professional_summary ≠ current.professional_summary))
    ∧ ((new_name pu = "" ∨ new_name pu = current.name)
        → (pu.email = "" ∨ pu.email = current.primary_email)
        → (pu.phone = "" ∨ pu.phone = current.phone)
        → (pu.company = "" ∨ pu.company = current.company)
        → (pu.position = "" ∨ pu.position = current.position)
        → (pu.industry = "" ∨ pu.industry = current.industry)
        → (pu.location = "" ∨ pu.location = current.location)
        → (pu.professional_summary = ""
            ∨ pu.professional_summary = current.professional_summary)
        → changes_logged pid ac current pu = []
          ∧ update_person_profile now db pid ac pu = (true, db)) := by
  refine ⟨?_, ?_, ?_, ?_, ?_, ?_, ?_, ?_, ?_, ?_, ?_⟩
  · rw [update_person_profile_eq now db pid ac pu current h]
    split <;> rfl
  · rw [update_person_profile_eq now db pid ac pu current h]
    split
    · next hemp =>
      rw [List.isEmpty_iff.mp hemp, List.append_nil]
    · rfl
  · exact (exists_field_of_filter_eq (changes_filter_name pid ac current pu)).trans
      (name_changed_iff pu current)
  · exact (exists_field_of_filter_eq (changes_filter_email pid ac current pu)).trans
      (email_changed_iff pu current)
  · exact (exists_field_of_filter_eq (changes_filter_phone pid ac current pu)).trans
      (phone_changed_iff pu current)
  · exact (exists_field_of_filter_eq (changes_filter_company pid ac current pu)).trans
      (company_changed_iff pu current)
  · exact (exists_field_of_filter_eq (changes_filter_position pid ac current pu)).trans
      (position_changed_iff pu current)
  · exact (exists_field_of_filter_eq (changes_filter_industry pid ac current pu)).trans
      (industry_changed_iff pu current)
  · exact (exists_field_of_filter_eq (changes_filter_location pid ac current pu)).trans
      (location_changed_iff pu current)
  · exact (exists_field_of_filter_eq (changes_filter_summary pid ac current pu)).trans
      (summary_changed_iff pu current)
  · intro h1 h2 h3 h4 h5 h6 h7 h8
    have c1 := changed_false_of _ _ _ _ (name_changed_iff pu current) h1
    have c2 := changed_false_of _ _ _ _ (email_changed_iff pu current) h2
    have c3 := changed_false_of _ _ _ _ (phone_changed_iff pu current) h3
    have c4 := changed_false_of _ _ _ _ (company_changed_iff pu current) h4
    have c5 := changed_false_of _ _ _ _ (position_changed_iff pu current) h5
    have c6 := changed_false_of _ _ _ _ (industry_changed_iff pu current) h6
    have c7 := changed_false_of _ _ _ _ (location_changed_iff pu current) h7
    have c8 := changed_false_of _ _ _ _ (summary_changed_iff pu current) h8
    have hnil : changes_logged pid ac current pu = [] := by
      simp [changes_logged, c1, c2, c3, c4, c5, c6, c7, c8]
    refine ⟨hnil, ?_⟩
    rw [update_person_profile_eq now db pid ac pu current h]
    simp [hnil]

/-- A stored person used to instantiate the C2 statement. -/
def c2wPerson : Person :=
  { basePerson with
      name := "Old Name"
      primary_email := "e@e.com"
      phone := "111" }

/-- A one-person database used to instantiate the C2 statement. -/
def c2wdb : DB := { emptyDB with persons := [c2wPerson] }

/-- An incoming profile with a new name and phone but no email. -/
def c2wpu : Profile := { first_name := "New", phone := "222" }

/-- Witness for C2 at a concrete input: the update succeeds and appends
exactly the computed change records. -/
theorem change_record_iff_differs_witness :
    (update_person_profile "n" c2wdb 1 "5" c2wpu).1 = true
    ∧ (update_person_profile "n" c2wdb 1 "5" c2wpu).2.profile_updates
        = changes_logged 1 "5" c2wPerson c2wpu := by
  have h := change_record_iff_differs "n" c2wdb 1 "5" c2wpu c2wPerson (by decide)
  refine ⟨h.1, ?_⟩
  rw [h.2.1]
  rfl

/-- In a table where every row with the given id was replaced by `u`, every
row that still has that id is `u`. -/
theorem mem_update_map {l : List Person} {pid : Nat} {u : Person} :
    ∀ q ∈ l.map (fun p => if p.person_id == pid then u else p), q.person_id = pid → q = u := by
  intro q hq hqid
  rcases List.mem_map.mp hq with ⟨q0, hq0, hfq⟩
  by_cases hcond : (q0.person_id == pid) = true
  · rw [if_pos hcond] at hfq
    exact hfq.symm
  · rw [if_neg hcond] at hfq
    rw [← hfq] at hqid
    exact absurd hqid (by simpa using hcond)

/-- C3: for each tracked field of `update_person_profile` other than the
name, the written row carries the incoming value exactly when it is non-empty
and differs from the stored value (otherwise the stored value is kept, so an
empty incoming value never overwrites), and exactly one change record with
the correct old and new values is emitted in precisely that case; whenever at
least one field changed, the written rows also carry the fresh last-synced
timestamp; the change log grows by exactly the emitted records and the call
reports success. -/
theorem tracked_field_update_correct (now : String) (db : DB) (pid : Nat) (ac : String)
    (pu : Profile) (current : Person)
    (h : findPersonById db pid = some current) :
    ((updated_row pu current).primary_email
      = if pu.email ≠ "" ∧ pu.email ≠ current.primary_email then pu.email
        else current.primary_email)
    ∧ ((changes_logged pid ac current pu).filter (fun r => r.field_name == "primary_email")
      = if pu.email ≠ "" ∧ pu.email ≠ current.primary_email then
          [⟨pid, ac, "primary_email", current.primary_email, pu.email, "webhook"⟩] else [])
    ∧ ((updated_row pu current).phone
      = if pu.phone ≠ "" ∧ pu.phone ≠ current.phone then pu.phone else current.phone)
    ∧ ((changes_logged pid ac current pu).filter (fun r => r.field_name == "phone")
      = if pu.phone ≠ "" ∧ pu.phone ≠ current.phone then
          [⟨pid, ac, "phone", current.phone, pu.phone, "webhook"⟩] else [])
    ∧ ((updated_row pu current).company
      = if pu.company ≠ "" ∧ pu.company ≠ current.company then pu.company
        else current.company)
    ∧ ((changes_logged pid ac current pu).filter (fun r => r.field_name == "company")
      = if pu.company ≠ "" ∧ pu.company ≠ current.company then
          [⟨pid, ac, "company", current.company, pu.company, "webhook"⟩] else [])
    ∧ ((updated_row pu current).position
      = if pu.position ≠ "" ∧ pu.position ≠ current.position then pu.position
        else current.position)
    ∧ ((changes_logged pid ac current pu).filter (fun r => r.field_name == "position")
      = if pu.position ≠ "" ∧ pu.position ≠ current.position then
          [⟨pid, ac, "position", current.position, pu.position, "webhook"⟩] else [])
    ∧ ((updated_row pu current).industry
      = if pu.industry ≠ "" ∧ pu.industry ≠ current.industry then pu.industry
        else current.industry)
    ∧ ((changes_logged pid ac current pu).filter (fun r => r.field_name == "industry")
      = if pu.industry ≠ "" ∧ pu.industry ≠ current.industry then
          [⟨pid, ac, "industry", current.industry, pu.industry, "webhook"⟩] else [])
    ∧ ((updated_row pu current).location
      = if pu.location ≠ "" ∧ pu.location ≠ current.location then pu.location
        else current.location)
    ∧ ((changes_logged pid ac current pu).filter (fun r => r.field_name == "location")
      = if pu.location ≠ "" ∧ pu.location ≠ current.location then
          [⟨pid, ac, "location", current.location, pu.location, "webhook"⟩] else [])
    ∧ ((updated_row pu current).professional_summary
      = if pu.professional_summary ≠ ""
            ∧ pu.professional_summary ≠ current.professional_summary
        then pu.professional_summary else current.professional_summary)
    ∧ ((changes_logged pid ac current pu).filter
          (fun r => r.field_name == "professional_summary")
      = if pu.professional_summary ≠ ""
            ∧ pu.professional_summary ≠ current.professional_summary then
          [⟨pid, ac, "professional_summary", current.professional_summary,
            pu.professional_summary, "webhook"⟩] else [])
    ∧ (changes_logged pid ac current pu ≠ [] →
        (update_person_profile now db pid ac pu).2.persons
          = db.persons.map (fun p => if p.person_id == pid then
              { updated_row pu current with ac_last_synced := now } else p)
        ∧ ∀ q ∈ (update_person_profile now db pid ac pu).2.persons, q.person_id = pid →
            q.ac_last_synced = now)
    ∧ (update_person_profile now db pid ac pu).2.profile_updates
        = db.profile_updates ++ changes_logged pid ac current pu
    ∧ (update_person_profile now db pid ac pu).1 = true := by
  refine ⟨?_, ?_, ?_, ?_, ?_, ?_, ?_, ?_, ?_, ?_, ?_, ?_, ?_, ?_, ?_, ?_, ?_⟩
  · exact ite_bool_prop _ _ (email_changed_iff pu current) _ _
  · exact (changes_filter_email pid ac current pu).trans
      (ite_bool_prop _ _ (email_changed_iff pu current) _ _)
  · exact ite_bool_prop _ _ (phone_changed_iff pu current) _ _
  · exact (changes_filter_phone pid ac current pu).trans
      (ite_bool_prop _ _ (phone_changed_iff pu current) _ _)
  · exact ite_bool_prop _ _ (company_changed_iff pu current) _ _
  · exact (changes_filter_company pid ac current pu).trans
      (ite_bool_prop _ _ (company_changed_iff pu current) _ _)
  · exact ite_bool_prop _ _ (position_changed_iff pu current) _ _
  · exact (changes_filter_position pid ac current pu).trans
      (ite_bool_prop _ _ (position_changed_iff pu current) _ _)
  · exact ite_bool_prop _ _ (industry_changed_iff pu current) _ _
  · exact (changes_filter_industry pid ac current pu).trans
      (ite_bool_prop _ _ (industry_changed_iff pu current) _ _)
  · exact ite_bool_prop _ _ (location_changed_iff pu current) _ _
  · exact (changes_filter_location pid ac current pu).trans
      (ite_bool_prop _ _ (location_changed_iff pu current) _ _)
  · exact ite_bool_prop _ _ (summary_changed_iff pu current) _ _
  · exact (changes_filter_summary pid ac current pu).trans
      (ite_bool_prop _ _ (summary_changed_iff pu current) _ _)
  · intro hne
    have hnef : (changes_logged pid ac current pu).isEmpty = false := by
      cases hE : (changes_logged pid ac current pu).isEmpty
      · rfl
      · exact absurd (List.isEmpty_iff.mp hE) hne
    constructor
    · rw [update_person_profile_eq now db pid ac pu current h, hnef]
      rfl
    · intro q hq hqid
      rw [update_person_profile_eq now db pid ac pu current h, hnef] at hq
      simp only [Bool.false_eq_true, if_false] at hq
      rw [mem_update_map q hq hqid]
  · rw [update_person_profile_eq now db pid ac pu current h]
    split
    · next hemp =>
      rw [List.isEmpty_iff.mp hemp, List.append_nil]
    · rfl
  · rw [update_person_profile_eq now db pid ac pu current h]
    split <;> rfl

/-- Witness for C3 at a concrete input: phone changes (non-empty, different)
and is both written and logged with correct old/new values; the absent email
does not overwrite the stored one. -/
theorem tracked_field_update_correct_witness :
    (updated_row c2wpu c2wPerson).phone = "222"
    ∧ (changes_logged 1 "5" c2wPerson c2wpu).filter (fun r => r.field_name == "phone")
        = [⟨1, "5", "phone", "111", "222", "webhook"⟩]
    ∧ (updated_row c2wpu c2wPerson).primary_email = "e@e.com" := by
  have h := tracked_field_update_correct "n" c2wdb 1 "5" c2wpu c2wPerson (by decide)
  exact ⟨(h.2.2.1).trans (by decide), (h.2.2.2.1).trans (by decide), h.1.trans (by decide)⟩

/-- A non-empty-and-different guard is false against the value it just
wrote: re-offering `x` after storing `if guard then x else y` changes
nothing. -/
theorem diff_guard_after (x y : String) :
    (x != "" && x != (if (x != "" && x != y) then x else y)) = false := by
  by_cases h1 : x = ""
  · simp [h1]
  · by_cases h2 : x = y
    · simp [h1, h2]
    · simp [h1, h2]

/-- The name guard is false against the row just written. -/
theorem name_changed_after (pu : Profile) (current : Person) (x : String) :
    name_changed pu { updated_row pu current with ac_last_synced := x } = false := by
  by_cases hc : name_changed pu current = true
  · have hname : ({ updated_row pu current with ac_last_synced := x } : Person).name
        = new_name pu := by
      simp [updated_row, hc]
    unfold name_changed
    rw [hname]
    simp
  · have hcf : name_changed pu current = false := by
      cases hv : name_changed pu current
      · rfl
      · exact absurd hv hc
    have hname : ({ updated_row pu current with ac_last_synced := x } : Person).name
        = current.name := by
      simp [updated_row, hcf]
    unfold name_changed
    rw [hname]
    exact hcf

/-- The email guard is false against the row just written. -/
theorem email_changed_after (pu : Profile) (current : Person) (x : String) :
    email_changed pu { updated_row pu current with ac_last_synced := x } = false := by
  simpa [email_changed, updated_row] using diff_guard_after pu.email current.primary_email

/-- The phone guard is false against the row just written. -/
theorem phone_changed_after (pu : Profile) (current : Person) (x : String) :
    phone_changed pu { updated_row pu current with ac_last_synced := x } = false := by
  simpa [phone_changed, updated_row] using diff_guard_after pu.phone current.phone

/-- The company guard is false against the row just written. -/
theorem company_changed_after (pu : Profile) (current : Person) (x : String) :
    company_changed pu { updated_row pu current with ac_last_synced := x } = false := by
  simpa [company_changed, updated_row] using diff_guard_after pu.company current.company

/-- The position guard is false against the row just written. -/
theorem position_changed_after (pu : Profile) (current : Person) (x : String) :
    position_changed pu { updated_row pu current with ac_last_synced := x } = false := by
  simpa [position_changed, updated_row] using diff_guard_after pu.position current.position

/-- The industry guard is false against the row just written. -/
theorem industry_changed_after (pu : Profile) (current : Person) (x : String) :
    industry_changed pu { updated_row pu current with ac_last_synced := x } = false := by
  simpa [industry_changed, updated_row] using diff_guard_after pu.industry current.industry

/-- The location guard is false against the row just written. -/
theorem location_changed_after (pu : Profile) (current : Person) (x : String) :
    location_changed pu { updated_row pu current with ac_last_synced := x } = false := by
  simpa [location_changed, updated_row] using diff_guard_after pu.location current.location

/-- The summary guard is false against the row just written. -/
theorem summary_changed_after (pu : Profile) (current : Person) (x : String) :
    summary_changed pu { updated_row pu current with ac_last_synced := x } = false := by
  simpa [summary_changed, updated_row] using
    diff_guard_after pu.professional_summary current.professional_summary

/-- Re-diffing the same profile against the row just written yields no
change records. -/
theorem changes_logged_updated_nil (pid : Nat) (ac : String) (current : Person)
    (pu : Profile) (x : String) :
    changes_logged pid ac { updated_row pu current with ac_last_synced := x } pu = [] := by
  simp [changes_logged, name_changed_after, email_changed_after, phone_changed_after,
    company_changed_after, position_changed_after, industry_changed_after,
    location_changed_after, summary_changed_after]

/-- After replacing every row with the looked-up id by `u`, the lookup
returns `u`. -/
theorem find?_update_map (l : List Person) (pid : Nat) (u : Person)
    (hu : (u.person_id == pid) = true) (c : Person)
    (h : l.find? (fun p => p.person_id == pid) = some c) :
    (l.map (fun p => if p.person_id == pid then u else p)).find?
      (fun p => p.person_id == pid) = some u := by
  induction l with
  | nil => simp at h
  | cons a t ih =>
    by_cases ha : (a.person_id == pid) = true
    · simp only [List.map_cons, if_pos ha]
      exact List.find?_cons_of_pos (p := fun q : Person => q.person_id == pid) _ hu
    · simp only [List.map_cons, if_neg ha]
      rw [List.find?_cons_of_neg (p := fun q : Person => q.person_id == pid) _ ha] at h
      rw [List.find?_cons_of_neg (p := fun q : Person => q.person_id == pid) _ ha]
      exact ih h

/-- C4: applying the same profile payload twice to an existing person is
idempotent — the second `update_person_profile` call reports success and
leaves the database (in particular the change log) exactly as after the
first call. -/
theorem apply_profile_idempotent (now1 now2 : String) (db : DB) (pid : Nat)
    (ac : String) (pu : Profile) (current : Person)
    (h : findPersonById db pid = some current) :
    (update_person_profile now2 (update_person_profile now1 db pid ac pu).2 pid ac pu).1
      = true
    ∧ (update_person_profile now2 (update_person_profile now1 db pid ac pu).2 pid ac pu).2
        = (update_person_profile now1 db pid ac pu).2 := by
  by_cases hchg : (changes_logged pid ac current pu).isEmpty = true
  · have h1 : update_person_profile now1 db pid ac pu = (true, db) := by
      rw [update_person_profile_eq now1 db pid ac pu current h, if_pos hchg]
    have h2 : update_person_profile now2 db pid ac pu = (true, db) := by
      rw [update_person_profile_eq now2 db pid ac pu current h, if_pos hchg]
    rw [h1]
    simp only []
    rw [h2]
    exact ⟨rfl, rfl⟩
  · have hnef : (changes_logged pid ac current pu).isEmpty = false := by
      cases hv : (changes_logged pid ac current pu).isEmpty
      · rfl
      · exact absurd hv hchg
    have hfind : findPersonById (update_person_profile now1 db pid ac pu).2 pid
        = some { updated_row pu current with ac_last_synced := now1 } := by
      rw [update_person_profile_eq now1 db pid ac pu current h, hnef]
      simp only [Bool.false_eq_true, if_false]
      unfold findPersonById
      exact find?_update_map db.persons pid _ (by simp [updated_row, findPersonById_pid h]) current h
    have hnil := changes_logged_updated_nil pid ac current pu now1
    have h2 : update_person_profile now2 (update_person_profile now1 db pid ac pu).2 pid ac pu
        = (true, (update_person_profile now1 db pid ac pu).2) := by
      rw [update_person_profile_eq now2 (update_person_profile now1 db pid ac pu).2
        pid ac pu _ hfind, hnil]
      rfl
    rw [h2]
    exact ⟨rfl, rfl⟩

/-- Witness for C4 at a concrete input: re-applying the same payload leaves
the database of the first application unchanged and still succeeds. -/
theorem apply_profile_idempotent_witness :
    (update_person_profile "n2" (update_person_profile "n1" c2wdb 1 "5" c2wpu).2 1 "5" c2wpu).1
      = true
    ∧ (update_person_profile "n2" (update_person_profile "n1" c2wdb 1 "5" c2wpu).2 1 "5" c2wpu).2
        = (update_person_profile "n1" c2wdb 1 "5" c2wpu).2 :=
  apply_profile_idempotent "n1" "n2" c2wdb 1 "5" c2wpu c2wPerson (by decide)

/-- A person already linked to external id `X`, reachable by email. -/
def c1Person : Person :=
  { basePerson with
      name := "John Doe"
      primary_email := "a@x.com"
      ac_contact_id := some "X" }

/-- A one-person database for the C1 counterexample. -/
def c1db : DB := { emptyDB with persons := [c1Person] }

/-- A `contact_update` event with a different external id `Y` but the same
email as `c1Person`. -/
def c1payload : Payload :=
  { type := "contact_update", contact := { id := "Y", email := "a@x.com" } }

/-- C1 counterexample: on `contact_update`, the email fallback finds a person
whose external identifier is already set (`some "X"`), yet the handler writes
the event's id `Y` over it — refuting the claim that an event never overrides
an existing external-id link via the email fallback. -/
theorem email_fallback_override_counterexample :
    find_person_by_ac_id c1db (extract_contact_id c1payload) = none
    ∧ find_person_by_email c1db (extract_email c1payload) = some c1Person
    ∧ strOptTruthy c1Person.ac_contact_id = true
    ∧ (handle_contact_update "t" c1db c1payload).2.persons.map Person.ac_contact_id
        = [some "Y"] := by
  refine ⟨by decide, by decide, by decide, by decide⟩

/-- C1 amended: when an event's external id matches nobody but its normalized
email matches person `p`, then (a) `handle_contact_add` links the external id
to `p` only if `p` has none set — the table is untouched when one is set, and
every row with `p`'s id carries the event's external id when none was set —
while (b) `handle_contact_update` writes the event's external id to `p`'s row
unconditionally, even when a different link was already set. -/
theorem email_fallback_link_amended (now : String) (db : DB) (payload : Payload) (p : Person)
    (hid : find_person_by_ac_id db (extract_contact_id payload) = none)
    (hem : find_person_by_email db (extract_email payload) = some p) :
    (strOptTruthy p.ac_contact_id = true →
      (handle_contact_add now db payload).2.persons = db.persons)
    ∧ (strOptTruthy p.ac_contact_id = false →
      ∀ q ∈ (handle_contact_add now db payload).2.persons, q.person_id = p.person_id →
        q.ac_contact_id = some (extract_contact_id payload))
    ∧ (∀ q ∈ (handle_contact_update now db payload).2.persons, q.person_id = p.person_id →
        q.ac_contact_id = some (extract_contact_id payload)) := by
  refine ⟨?_, ?_, ?_⟩
  · intro ht
    simp only [handle_contact_add, hid, hem, ht, Bool.not_true, Bool.false_eq_true,
      if_false, log_webhook]
  · intro hf q hq hqid
    simp only [handle_contact_add, hid, hem, hf, Bool.not_false, if_true, log_webhook] at hq
    exact link_ac_contact_id_mem db (extract_contact_id payload) p.person_id q hq hqid
  · intro q hq hqid
    simp only [handle_contact_update, resolve_update, hid, hem, contact_update_finish,
      log_webhook] at hq
    obtain ⟨q0, hq0, hq0id, hacq⟩ :=
      update_person_profile_preserves_link now
        (link_ac_contact_id db (extract_contact_id payload) p.person_id)
        p.person_id (extract_contact_id payload) (extract_profile_fields payload) q hq hqid
    rw [hacq]
    exact link_ac_contact_id_mem db (extract_contact_id payload) p.person_id q0 hq0 hq0id

/-- A person with no external id, reachable by email, for the C1 witness. -/
def w1Person : Person := { basePerson with primary_email := "b@y.com" }

/-- A one-person database for the C1 witness. -/
def w1db : DB := { emptyDB with persons := [w1Person] }

/-- A `contact_add` event whose email matches `w1Person`. -/
def w1payload : Payload :=
  { type := "contact_add", contact := { id := "7", email := "b@y.com" } }

/-- The row expected after `handle_contact_add` links `w1Person` to id 7. -/
def w1Linked : Person :=
  { w1Person with
      ac_contact_id := some "7"
      ac_profile_source := "activecampaign" }

/-- Witness for the amended C1: at a concrete input the id lookup fails, the
email lookup finds an unlinked person, and after `handle_contact_add` that
person's row carries the event's external id. -/
theorem email_fallback_link_amended_witness :
    find_person_by_ac_id w1db (extract_contact_id w1payload) = none
    ∧ find_person_by_email w1db (extract_email w1payload) = some w1Person
    ∧ strOptTruthy w1Person.ac_contact_id = false
    ∧ w1Linked.ac_contact_id = some "7" := by
  have h := email_fallback_link_amended "t" w1db w1payload w1Person (by decide) (by decide)
  exact ⟨by decide, by decide, by decide, h.2.1 (by decide) w1Linked (by decide) (by decide)⟩

/-- The existing record of the C6 scenario: id-linked to `42`, named
`John Doe`, with the event's email already stored. -/
def c6Person : Person :=
  { basePerson with
      person_id := 7
      name := "John Doe"
      primary_email := "a@x.com"
      ac_contact_id := some "42" }

/-- A one-person database for the C6 scenario. -/
def c6db : DB := { emptyDB with persons := [c6Person] }

/-- The C6 scenario event: `contact_update` with id `42`, email `a@x.com`,
firstName `Jane`. -/
def c6payload : Payload :=
  { type := "contact_update"
    contact := { id := "42", email := "a@x.com", firstName := "Jane" } }

/-- C6: a name change record is emitted exactly when at least one of the
incoming first/last names is non-empty and the combined display name is
non-empty and differs from the stored name, carrying the old and new names;
and in the concrete scenario the name becomes `Jane` with exactly one change
record `(name, John Doe, Jane)` and success. -/
theorem name_change_rule_and_scenario :
    (∀ (pid : Nat) (ac : String) (current : Person) (pu : Profile),
      (changes_logged pid ac current pu).filter (fun r => r.field_name == "name")
        = if (pu.first_name ≠ "" ∨ pu.last_name ≠ "")
              ∧ new_name pu ≠ "" ∧ new_name pu ≠ current.name
          then [⟨pid, ac, "name", current.name, new_name pu, "webhook"⟩] else [])
    ∧ (handle_contact_update "t1" c6db c6payload).1.success = true
    ∧ (handle_contact_update "t1" c6db c6payload).2.profile_updates
        = [⟨7, "42", "name", "John Doe", "Jane", "webhook"⟩]
    ∧ (handle_contact_update "t1" c6db c6payload).2.persons.map Person.name = ["Jane"] := by
  refine ⟨?_, by decide, by decide, by decide⟩
  intro pid ac current pu
  exact (changes_filter_name pid ac current pu).trans
    (ite_bool_prop _ _ (name_changed_iff_full pu current) _ _)

/-- C8: a request whose normalized event type is none of the three contact
events is answered with HTTP 400 and leaves the database untouched (no log
entry, no mutation); a non-empty bare type without the `contact_` prefix is
normalized by prefixing `contact_` before the check. -/
theorem unknown_type_rejected (now : String) (db : DB) (payload : Payload)
    (h : normalize_webhook_type payload.type ∉
        (["contact_add", "contact_update", "contact_delete"] : List String)) :
    webhook_handler now db payload = ((400, none), db)
    ∧ (∀ t : String, t ≠ "" → strStartsWith t "contact_" = false →
        normalize_webhook_type t = "contact_" ++ t) := by
  constructor
  · have h1 : (normalize_webhook_type payload.type == "contact_update") = false := by
      simp only [beq_eq_false_iff_ne, ne_eq]
      intro he
      exact h (by rw [he]; simp)
    have h2 : (normalize_webhook_type payload.type == "contact_add") = false := by
      simp only [beq_eq_false_iff_ne, ne_eq]
      intro he
      exact h (by rw [he]; simp)
    have h3 : (normalize_webhook_type payload.type == "contact_delete") = false := by
      simp only [beq_eq_false_iff_ne, ne_eq]
      intro he
      exact h (by rw [he]; simp)
    simp [webhook_handler, h1, h2, h3]
  · intro t h1 h2
    unfold normalize_webhook_type
    rw [if_pos (by simp [h1, h2])]

/-- Witness for C8: the type `frobnicate` is normalized to
`contact_frobnicate`, which is unknown, so the request yields HTTP 400 with
the database unchanged. -/
theorem unknown_type_rejected_witness :
    webhook_handler "t" emptyDB { type := "frobnicate" } = ((400, none), emptyDB)
    ∧ normalize_webhook_type "frobnicate" = "contact_frobnicate" := by
  have h := unknown_type_rejected "t" emptyDB { type := "frobnicate" } (by decide)
  exact ⟨h.1, h.2 "frobnicate" (by decide) (by decide)⟩

/-- The logical attribute targeted by a custom-field entry name, per the
spec's ordered keyword set (`company`, `industry`, `job`/`title`, `location`,
`summary`) under case-insensitive substring matching, first match winning. -/
def firstKeywordTarget (n : String) : Option String :=
  if containsSub (strToLower n) "company" then some "company"
  else if containsSub (strToLower n) "industry" then some "industry"
  else if containsSub (strToLower n) "job" || containsSub (strToLower n) "title" then
    some "position"
  else if containsSub (strToLower n) "location" then some "location"
  else if containsSub (strToLower n) "summary" then some "summary"
  else none

/-- Read one of the five custom-field attributes of a profile by name. -/
def profile_attr (a : String) (p : Profile) : String :=
  if a = "company" then p.company
  else if a = "industry" then p.industry
  else if a = "position" then p.position
  else if a = "location" then p.location
  else p.professional_summary

/-- A targeted attribute is one of the five custom-field attributes. -/
theorem firstKeywordTarget_mem {n a : String} (h : firstKeywordTarget n = some a) :
    a ∈ (["company", "industry", "position", "location", "summary"] : List String) := by
  unfold firstKeywordTarget at h
  split_ifs at h <;> simp_all

/-- Setting the company attribute does not affect another attribute. -/
theorem profile_attr_set_company (a : String) (p : Profile) (v : String)
    (hne : a ≠ "company") :
    profile_attr a { p with company := v } = profile_attr a p := by
  unfold profile_attr
  split_ifs <;> simp_all

/-- Setting the industry attribute does not affect another attribute. -/
theorem profile_attr_set_industry (a : String) (p : Profile) (v : String)
    (hne : a ≠ "industry") :
    profile_attr a { p with industry := v } = profile_attr a p := by
  unfold profile_attr
  split_ifs <;> simp_all

/-- Setting the position attribute does not affect another attribute. -/
theorem profile_attr_set_position (a : String) (p : Profile) (v : String)
    (hne : a ≠ "position") :
    profile_attr a { p with position := v } = profile_attr a p := by
  unfold profile_attr
  split_ifs <;> simp_all

/-- Setting the location attribute does not affect another attribute. -/
theorem profile_attr_set_location (a : String) (p : Profile) (v : String)
    (hne : a ≠ "location") :
    profile_attr a { p with location := v } = profile_attr a p := by
  unfold profile_attr
  split_ifs <;> simp_all

/-- Setting the summary attribute does not affect another of the five
custom-field attributes. -/
theorem profile_attr_set_summary (a : String) (p : Profile) (v : String)
    (ha : a ∈ (["company", "industry", "position", "location", "summary"] : List String))
    (hne : a ≠ "summary") :
    profile_attr a { p with professional_summary := v } = profile_attr a p := by
  fin_cases ha <;> simp_all [profile_attr]

/-- Processing an entry writes its value into the targeted attribute. -/
theorem applyFieldValue_target (p : Profile) (e : FieldValue) (a : String)
    (h : firstKeywordTarget e.field = some a) :
    profile_attr a (applyFieldValue p e) = e.value := by
  unfold firstKeywordTarget at h
  unfold applyFieldValue
  by_cases h1 : containsSub (strToLower e.field) "company" = true
  · rw [if_pos h1] at h
    rw [if_pos h1]
    obtain rfl := Option.some.inj h
    simp [profile_attr]
  · rw [if_neg h1] at h
    rw [if_neg h1]
    by_cases h2 : containsSub (strToLower e.field) "industry" = true
    · rw [if_pos h2] at h
      rw [if_pos h2]
      obtain rfl := Option.some.inj h
      simp [profile_attr]
    · rw [if_neg h2] at h
      rw [if_neg h2]
      by_cases h3 : (containsSub (strToLower e.field) "job"
          || containsSub (strToLower e.field) "title") = true
      · rw [if_pos h3] at h
        rw [if_pos h3]
        obtain rfl := Option.some.inj h
        simp [profile_attr]
      · rw [if_neg h3] at h
        rw [if_neg h3]
        by_cases h4 : containsSub (strToLower e.field) "location" = true
        · rw [if_pos h4] at h
          rw [if_pos h4]
          obtain rfl := Option.some.inj h
          simp [profile_attr]
        · rw [if_neg h4] at h
          rw [if_neg h4]
          by_cases h5 : containsSub (strToLower e.field) "summary" = true
          · rw [if_pos h5] at h
            rw [if_pos h5]
            obtain rfl := Option.some.inj h
            simp [profile_attr]
          · rw [if_neg h5] at h
            simp at h

/-- Processing an entry that does not target attribute `a` leaves `a`
unchanged. -/
theorem applyFieldValue_skip (p : Profile) (e : FieldValue) (a : String)
    (ha : a ∈ (["company", "industry", "position", "location", "summary"] : List String))
    (h : firstKeywordTarget e.field ≠ some a) :
    profile_attr a (applyFieldValue p e) = profile_attr a p := by
  unfold firstKeywordTarget at h
  unfold applyFieldValue
  by_cases h1 : containsSub (strToLower e.field) "company" = true
  · rw [if_pos h1] at h
    rw [if_pos h1]
    exact profile_attr_set_company a p e.value (fun hh => h (by rw [hh]))
  · rw [if_neg h1] at h
    rw [if_neg h1]
    by_cases h2 : containsSub (strToLower e.field) "industry" = true
    · rw [if_pos h2] at h
      rw [if_pos h2]
      exact profile_attr_set_industry a p e.value (fun hh => h (by rw [hh]))
    · rw [if_neg h2] at h
      rw [if_neg h2]
      by_cases h3 : (containsSub (strToLower e.field) "job"
          || containsSub (strToLower e.field) "title") = true
      · rw [if_pos h3] at h
        rw [if_pos h3]
        exact profile_attr_set_position a p e.value (fun hh => h (by rw [hh]))
      · rw [if_neg h3] at h
        rw [if_neg h3]
        by_cases h4 : containsSub (strToLower e.field) "location" = true
        · rw [if_pos h4] at h
          rw [if_pos h4]
          exact profile_attr_set_location a p e.value (fun hh => h (by rw [hh]))
        · rw [if_neg h4] at h
          rw [if_neg h4]
          by_cases h5 : containsSub (strToLower e.field) "summary" = true
          · rw [if_pos h5] at h
            rw [if_pos h5]
            exact profile_attr_set_summary a p e.value ha (fun hh => h (by rw [hh]))
          · rw [if_neg h5]

/-- In the custom-field fold, the value of the last entry targeting an
attribute is the one kept. -/
theorem later_entry_wins (base : Profile) (l1 l2 : List FieldValue) (e : FieldValue)
    (a : String) (he : firstKeywordTarget e.field = some a)
    (hl2 : ∀ e2 ∈ l2, firstKeywordTarget e2.field ≠ some a) :
    profile_attr a ((l1 ++ e :: l2).foldl applyFieldValue base) = e.value := by
  have hmem := firstKeywordTarget_mem he
  have key : ∀ (m : List FieldValue) (acc : Profile),
      (∀ e2 ∈ m, firstKeywordTarget e2.field ≠ some a) →
      profile_attr a (m.foldl applyFieldValue acc) = profile_attr a acc := by
    intro m
    induction m with
    | nil => intro acc _; rfl
    | cons b t ih =>
      intro acc hm
      rw [List.foldl_cons, ih (applyFieldValue acc b)
        (fun e2 he2 => hm e2 (List.mem_cons_of_mem b he2))]
      exact applyFieldValue_skip acc b a hmem (hm b (List.mem_cons_self b t))
  rw [List.foldl_append, List.foldl_cons, key l2 _ hl2]
  exact applyFieldValue_target _ e a he

/-- The C9 witness payload: two company entries with a job entry between. -/
def c9wpayload : Payload :=
  { contact := { fieldValues :=
      [⟨"Company Name", "Acme"⟩, ⟨"JOB TITLE", "CEO"⟩, ⟨"company_name", "Beta"⟩] } }

/-- C9: each custom-field entry is classified by case-insensitive substring
matching against the ordered keywords `company`, `industry`, `job`/`title`,
`location`, `summary`, the first matching keyword winning for the entry;
non-matching entries are dropped; matching is case-insensitive; and because
entries are not deduplicated, the last entry targeting an attribute
determines the extracted value. -/
theorem custom_field_keyword_mapping :
    (∀ (p : Profile) (e : FieldValue),
      containsSub (strToLower e.field) "company" = true →
      applyFieldValue p e = { p with company := e.value })
    ∧ (∀ (p : Profile) (e : FieldValue),
      containsSub (strToLower e.field) "company" = false →
      containsSub (strToLower e.field) "industry" = true →
      applyFieldValue p e = { p with industry := e.value })
    ∧ (∀ (p : Profile) (e : FieldValue),
      containsSub (strToLower e.field) "company" = false →
      containsSub (strToLower e.field) "industry" = false →
      (containsSub (strToLower e.field) "job" || containsSub (strToLower e.field) "title")
        = true →
      applyFieldValue p e = { p with position := e.value })
    ∧ (∀ (p : Profile) (e : FieldValue),
      containsSub (strToLower e.field) "company" = false →
      containsSub (strToLower e.field) "industry" = false →
      containsSub (strToLower e.field) "job" = false →
      containsSub (strToLower e.field) "title" = false →
      containsSub (strToLower e.field) "location" = true →
      applyFieldValue p e = { p with location := e.value })
    ∧ (∀ (p : Profile) (e : FieldValue),
      containsSub (strToLower e.field) "company" = false →
      containsSub (strToLower e.field) "industry" = false →
      containsSub (strToLower e.field) "job" = false →
      containsSub (strToLower e.field) "title" = false →
      containsSub (strToLower e.field) "location" = false →
      containsSub (strToLower e.field) "summary" = true →
      applyFieldValue p e = { p with professional_summary := e.value })
    ∧ (∀ (p : Profile) (e : FieldValue),
      containsSub (strToLower e.field) "company" = false →
      containsSub (strToLower e.field) "industry" = false →
      containsSub (strToLower e.field) "job" = false →
      containsSub (strToLower e.field) "title" = false →
      containsSub (strToLower e.field) "location" = false →
      containsSub (strToLower e.field) "summary" = false →
      applyFieldValue p e = p)
    ∧ (firstKeywordTarget "JOB TITLE" = some "position"
        ∧ firstKeywordTarget "Company Job Title" = some "company")
    ∧ (∀ (payload : Payload) (l1 l2 : List FieldValue) (e : FieldValue) (a : String),
      firstKeywordTarget e.field = some a →
      (∀ e2 ∈ l2, firstKeywordTarget e2.field ≠ some a) →
      payload.contact.fieldValues = l1 ++ e :: l2 →
      profile_attr a (extract_profile_fields payload) = e.value) := by
  refine ⟨?_, ?_, ?_, ?_, ?_, ?_, by decide, ?_⟩
  · intro p e h1
    unfold applyFieldValue
    rw [if_pos h1]
  · intro p e h1 h2
    unfold applyFieldValue
    rw [if_neg (by simp [h1]), if_pos h2]
  · intro p e h1 h2 h3
    unfold applyFieldValue
    rw [if_neg (by simp [h1]), if_neg (by simp [h2]), if_pos h3]
  · intro p e h1 h2 h3 h4 h5
    unfold applyFieldValue
    rw [if_neg (by simp [h1]), if_neg (by simp [h2]), if_neg (by simp [h3, h4]),
      if_pos h5]
  · intro p e h1 h2 h3 h4 h5 h6
    unfold applyFieldValue
    rw [if_neg (by simp [h1]), if_neg (by simp [h2]), if_neg (by simp [h3, h4]),
      if_neg (by simp [h5]), if_pos h6]
  · intro p e h1 h2 h3 h4 h5 h6
    unfold applyFieldValue
    rw [if_neg (by simp [h1]), if_neg (by simp [h2]), if_neg (by simp [h3, h4]),
      if_neg (by simp [h5]), if_neg (by simp [h6])]
  · intro payload l1 l2 e a he hl2 hfv
    simp only [extract_profile_fields]
    rw [hfv]
    exact later_entry_wins _ l1 l2 e a he hl2

/-- Witness for C9: with two entries targeting `company` (`Company Name`
then `company_name`), the later entry's value `Beta` is the one extracted. -/
theorem custom_field_keyword_mapping_witness :
    profile_attr "company" (extract_profile_fields c9wpayload) = "Beta" := by
  have h := custom_field_keyword_mapping
  exact h.2.2.2.2.2.2.2 c9wpayload [⟨"Company Name", "Acme"⟩, ⟨"JOB TITLE", "CEO"⟩] []
    ⟨"company_name", "Beta"⟩ "company" (by decide) (by simp) (by decide)

end CRMListener
